import Mathlib

/-!
Shallow embedding of the Preamble microservice skeleton
(`pkg/gnodeb/service`, `pkg/gnodeb/endpoints`, `pkg/preamblesvc/endpoints`
and the gRPC transports file), together with proofs of the specification
claims about it.

Modelling conventions:
* Go `int64` is modelled as `Int` (no claim involves overflow).
* Go `context.Context` is opaque to every function in scope, so it is
  modelled as `Unit`-like abstract data.
* A Go `error` value is `Option GoError`: `none` is the nil error.
* gRPC status codes are `Nat` (OK = 0, Internal = 13, as in
  `google.golang.org/grpc/codes`).
-/

/-- Go `context.Context`: opaque to all code in scope. -/
structure Context where
  unit : Unit := ()
deriving DecidableEq, Repr, Inhabited

/-- A Go `error` value that is non-nil. Either a gRPC status error
(created by `status.Error`, carrying a code and a message) or any other
error (e.g. one from `errors.New`), identified by its message. A nil Go
error is `none : Option GoError`. -/
inductive GoError
  | statusErr (code : Nat) (msg : String)
  | otherErr (msg : String)
deriving DecidableEq, Repr

/-- `codes.OK` from `google.golang.org/grpc/codes`. -/
def codeOK : Nat := 0

/-- `codes.Internal` from `google.golang.org/grpc/codes`. -/
def codeInternal : Nat := 13

/-- `status.FromError`: succeeds (ok = true) exactly on gRPC status
errors, returning their code and message; fails on any other error. -/
def statusFromError : GoError → Option (Nat × String)
  | .statusErr c m => some (c, m)
  | .otherErr _ => none

/-- `status.Error(c, msg)` from `google.golang.org/grpc/status`: builds a
status error, except that code OK yields the nil error. -/
def statusError (c : Nat) (m : String) : Option GoError :=
  if c = codeOK then none else some (.statusErr c m)

/-- `grpcEncodeError` from the transports file: nil maps to nil; an error
already carrying a recognized wire status is re-encoded with the same code
and message; any other error maps to `codes.Internal` with the fixed
message "internal server error". -/
def grpcEncodeError : Option GoError → Option GoError
  | none => none
  | some err =>
    match statusFromError err with
    | some (c, m) => statusError c m
    | none => statusError codeInternal "internal server error"

namespace service

/-- The `PreamblesvcService` interface from `pkg/gnodeb/service/service.go`:
one operation `Preamble(ctx, msg) -> (rs, err)`. -/
structure PreamblesvcService where
  Preamble : Context → Int → Int × Option GoError

/-- `stubPreamblesvcService.Preamble` from `pkg/gnodeb/service/service.go`:
`return msg, err` where `err` is the named return value, still at its zero
value nil — an identity echo that never fails. -/
def stubPreamblesvcService : PreamblesvcService :=
  { Preamble := fun _ msg => (msg, none) }

end service

namespace endpoints

/-- `PreambleRequest` from `pkg/preamblesvc/endpoints/requests.go`:
collects the request parameters for the method: `{msg: int64}`. -/
structure PreambleRequest where
  Msg : Int
deriving DecidableEq, Repr

/-- `PreambleRequest.validate` from the source: `return nil // TBA` — a
permissive no-op that accepts every request. -/
def PreambleRequest.validate (_ : PreambleRequest) : Option GoError := none

/-- `PreambleResponse` from the endpoints package: `{Rs int64; Err error}`.
The zero value (Go `PreambleResponse{}`) is `{ Rs := 0, Err := none }`. -/
structure PreambleResponse where
  Rs : Int := 0
  Err : Option GoError := none
deriving DecidableEq, Repr

/-- `http.StatusOK` from `net/http`. -/
def httpStatusOK : Nat := 200

/-- `PreambleResponse.StatusCode` from the source: `return http.StatusOK // TBA`. -/
def PreambleResponse.StatusCode (_ : PreambleResponse) : Nat := httpStatusOK

/-- `PreambleResponse.Headers` from the source: `return http.Header{}` —
the empty header map, modelled as an empty association list. -/
def PreambleResponse.Headers (_ : PreambleResponse) : List (String × List String) := []

/-- The body of the closure returned by `MakePreambleEndpoint`, with the
request's `validate` method abstracted as a parameter: the source
programs against the `Request` interface contract `validate() error`
(from `requests.go`), and the concrete `PreambleRequest.validate` is a
permissive no-op. If validation fails the closure returns the zero
`PreambleResponse{}` paired with the validation error, never calling the
service; otherwise it calls `svc.Preamble(ctx, req.Msg)` and returns
`PreambleResponse{Rs: rs}` paired with the service's error. -/
def makePreambleEndpointV (validate : PreambleRequest → Option GoError)
    (svc : service.PreamblesvcService) (ctx : Context) (req : PreambleRequest) :
    PreambleResponse × Option GoError :=
  match validate req with
  | some err => ({}, some err)
  | none =>
    let (rs, err) := svc.Preamble ctx req.Msg
    ({ Rs := rs }, err)

/-- `MakePreambleEndpoint` from `pkg/gnodeb/endpoints/endpoints.go`: the
endpoint closure over a service, using the concrete
`PreambleRequest.validate`. The generic-to-concrete request cast
(`request.(PreambleRequest)`) is reflected by typing the request
parameter concretely. -/
def MakePreambleEndpoint (svc : service.PreamblesvcService) :
    Context → PreambleRequest → PreambleResponse × Option GoError :=
  makePreambleEndpointV PreambleRequest.validate svc

/-- The `Endpoints` struct from `pkg/gnodeb/endpoints/endpoints.go`:
collects the one decorated endpoint of the service. -/
structure Endpoints where
  PreambleEndpoint : Context → PreambleRequest → PreambleResponse × Option GoError

/-- `Endpoints.Preamble` from the source: invokes the endpoint on
`PreambleRequest{Msg: msg}`; on a non-nil error returns the named return
values `(rs, err)` with `rs` still at its zero value 0; otherwise casts
the response and returns `(response.Rs, nil)`. -/
def Endpoints.Preamble (e : Endpoints) (ctx : Context) (msg : Int) :
    Int × Option GoError :=
  let (resp, err) := e.PreambleEndpoint ctx { Msg := msg }
  match err with
  | some er => (0, some er)
  | none => (resp.Rs, none)

/-- A concrete service whose `Preamble` always fails with a business
error; used as a test input. -/
def failingService : service.PreamblesvcService :=
  { Preamble := fun _ _ => (0, some (.otherErr "boom")) }

end endpoints

/-- `ErrLimited` of the go-kit ratelimit package: the error returned when
the limiter denies a token ("rate limit exceeded"). -/
def errRateLimited : GoError := .otherErr "rate limit exceeded"

/-- The gobreaker open-state error: the error a call receives while the
circuit breaker is open ("circuit breaker is open"). -/
def errCircuitOpen : GoError := .otherErr "circuit breaker is open"

namespace ratelimit

/-- Modelled from the spec: the token-bucket rate-limiter state (the
`rate.Limiter` instance shared by the endpoints; only the available-token
count matters for the admission decision — refill is time-driven and out
of a single call's scope). -/
structure Limiter where
  tokens : Nat
deriving DecidableEq, Repr

/-- Modelled from the spec: the non-blocking token check — a token is
granted exactly when one is available, consuming it. -/
def Limiter.allow (l : Limiter) : Bool × Limiter :=
  if 0 < l.tokens then (true, ⟨l.tokens - 1⟩) else (false, l)

/-- Modelled from the spec: `ratelimit.NewErroringLimiter` (the go-kit
middleware used in `New` and `NewGRPCClient`, not part of this
repository): before invoking the wrapped endpoint it attempts to take a
token; on denial it fails immediately with the rate-exceeded error and
the wrapped endpoint is not invoked. The result records the call's
outcome, the limiter's new state, and whether the wrapped endpoint was
invoked. -/
def erroringLimiter (l : Limiter)
    (next : Context → endpoints.PreambleRequest → endpoints.PreambleResponse × Option GoError)
    (ctx : Context) (req : endpoints.PreambleRequest) :
    (endpoints.PreambleResponse × Option GoError) × Limiter × Bool :=
  let (ok, l') := l.allow
  if ok then (next ctx req, l', true)
  else ((({} : endpoints.PreambleResponse), some errRateLimited), l', false)

end ratelimit

namespace circuitbreaker

/-- Modelled from the spec: the circuit-breaker configuration — the
consecutive-failure threshold and the cooldown duration (gobreaker's
`Settings`, not part of this repository). -/
structure Settings where
  threshold : Nat
  cooldown : Nat
deriving DecidableEq, Repr

/-- Modelled from the spec: the breaker's state — Closed with a count of
consecutive failures, Open since a given time, or HalfOpen awaiting a
trial call. -/
inductive BreakerState
  | closed (failures : Nat)
  | opened (since : Nat)
  | halfOpen
deriving DecidableEq, Repr

/-- Modelled from the spec: the HalfOpen trial — the call passes through;
a trial success transitions to Closed, a trial failure transitions back
to Open at the current time. Returns (call result, whether the wrapped
endpoint was invoked, next state). -/
def trialStep (now : Nat) (outcome : Option GoError) :
    Option GoError × Bool × BreakerState :=
  match outcome with
  | some e => (some e, true, .opened now)
  | none => (none, true, .closed 0)

/-- Modelled from the spec: one call through the circuit-breaker
middleware (gobreaker, not part of this repository). `now` is the call's
time and `outcome` the error the wrapped endpoint would produce were it
invoked. Closed: the call passes through; a failure increments the
consecutive-failure count and reaching the threshold opens the breaker;
a success resets the count. Open: within the cooldown window the call
fails immediately with the circuit-open error and the wrapped endpoint
is not invoked; once the cooldown has elapsed the call is the HalfOpen
trial. Returns (call result, whether the wrapped endpoint was invoked,
next state). -/
def step (cfg : Settings) (st : BreakerState) (now : Nat)
    (outcome : Option GoError) : Option GoError × Bool × BreakerState :=
  match st with
  | .closed f =>
    match outcome with
    | some e =>
      (some e, true, if cfg.threshold ≤ f + 1 then .opened now else .closed (f + 1))
    | none => (none, true, .closed 0)
  | .opened t =>
    if now < t + cfg.cooldown then (some errCircuitOpen, false, .opened t)
    else trialStep now outcome
  | .halfOpen => trialStep now outcome

/-- The breaker state after `n` consecutive failing calls (all at time 0,
each failing with a business error), starting from `st`. -/
def iterateFailures (cfg : Settings) (st : BreakerState) : Nat → BreakerState
  | 0 => st
  | n + 1 => (step cfg (iterateFailures cfg st n) 0 (some (.otherErr "boom"))).2.2

end circuitbreaker

namespace endpoints

/-- An endpoint instrumented with an event trace: a call returns the list
of middleware-entry events in execution order (outermost first) together
with the call's result. -/
abbrev TEndpoint :=
  Context → PreambleRequest → List String × (PreambleResponse × Option GoError)

/-- `MakePreambleEndpoint` lifted to the instrumented form: entering the
bare endpoint records the event "endpoint". -/
def makePreambleEndpointT (svc : service.PreamblesvcService) : TEndpoint :=
  fun ctx req => (["endpoint"], MakePreambleEndpoint svc ctx req)

/-- Modelled from the spec: the rate-limiting middleware in instrumented
form — records its entry, then passes through when a token is available
(burst-many tokens at construction in `New`) and rejects otherwise. -/
def rateLimitMwT (tokens : Nat) (next : TEndpoint) : TEndpoint :=
  fun ctx req =>
    if 0 < tokens then
      let (evs, r) := next ctx req
      ("ratelimit" :: evs, r)
    else (["ratelimit"], (({} : PreambleResponse), some errRateLimited))

/-- Modelled from the spec: the circuit-breaker middleware in
instrumented form — records its entry, then passes through unless the
breaker is open (a fresh gobreaker, as constructed in `New`, starts
Closed). -/
def circuitBreakerMwT (isOpen : Bool) (next : TEndpoint) : TEndpoint :=
  fun ctx req =>
    if isOpen then (["circuitbreaker"], (({} : PreambleResponse), some errCircuitOpen))
    else
      let (evs, r) := next ctx req
      ("circuitbreaker" :: evs, r)

/-- Modelled from the spec: `opentracing.TraceServer` in instrumented
form — opens a span named after the operation on entry and passes the
call through. -/
def traceServerMwT (operationName : String) (next : TEndpoint) : TEndpoint :=
  fun ctx req =>
    let (evs, r) := next ctx req
    (("opentracing:" ++ operationName) :: evs, r)

/-- Modelled from the spec: `zipkin.TraceEndpoint` in instrumented form —
opens a zipkin span named after the operation on entry and passes the
call through. -/
def zipkinTraceMwT (operationName : String) (next : TEndpoint) : TEndpoint :=
  fun ctx req =>
    let (evs, r) := next ctx req
    (("zipkin:" ++ operationName) :: evs, r)

/-- Modelled from the spec: the endpoint-level `LoggingMiddleware`
referenced by `New` (its definition is not among the provided source
files) in instrumented form — records its entry and passes the call
through, logging on exit. -/
def loggingMwT (next : TEndpoint) : TEndpoint :=
  fun ctx req =>
    let (evs, r) := next ctx req
    ("logging" :: evs, r)

/-- `New` from `pkg/gnodeb/endpoints/endpoints.go` in instrumented form,
wrapping the middlewares in exactly the source's application order:
`MakePreambleEndpoint`, then `ratelimit.NewErroringLimiter` (burst 100),
then `circuitbreaker.Gobreaker` on a fresh (Closed) breaker, then
`opentracing.TraceServer`, then `zipkin.TraceEndpoint`, then
`LoggingMiddleware` — each later application wrapping the previous
result, with `method := "sum"` as in the source. -/
def NewT (svc : service.PreamblesvcService) : TEndpoint :=
  let method := "sum"
  let preambleEndpoint := makePreambleEndpointT svc
  let preambleEndpoint := rateLimitMwT 100 preambleEndpoint
  let preambleEndpoint := circuitBreakerMwT false preambleEndpoint
  let preambleEndpoint := traceServerMwT method preambleEndpoint
  let preambleEndpoint := zipkinTraceMwT method preambleEndpoint
  let preambleEndpoint := loggingMwT preambleEndpoint
  preambleEndpoint

end endpoints

namespace service

/-- A value in a structured key-value log entry. -/
inductive LogValue
  | str (s : String)
  | int (i : Int)
  | err (e : Option GoError)
deriving DecidableEq, Repr

/-- The structured log entry emitted by the deferred function in
`loggingMiddleware.Preamble` (`pkg/gnodeb/service/logging.go`):
`lm.logger.Log("method", "Preable", "msg", msg, "err", err)`. -/
def loggingPreambleLogEntry (msg : Int) (err : Option GoError) :
    List (String × LogValue) :=
  [("method", .str "Preable"), ("msg", .int msg), ("err", .err err)]

end service

/-- C3: for every context and every int64 msg, the stub service's
`Preamble(ctx, msg)` returns `(msg, nil)`: an identity echo that never
fails. -/
theorem stub_preamble_identity_echo (ctx : Context) (msg : Int) :
    service.stubPreamblesvcService.Preamble ctx msg = (msg, none) := rfl

/-- C5: `grpcEncodeError` is idempotent — nil maps to nil, and applying it
to an already-mapped error returns the very same error value (hence the
same wire status code and message). -/
theorem grpcEncodeError_idempotent :
    grpcEncodeError none = none ∧
    ∀ e : Option GoError, grpcEncodeError (grpcEncodeError e) = grpcEncodeError e := by
  refine ⟨rfl, ?_⟩
  intro e
  match e with
  | none => rfl
  | some (.statusErr c m) =>
    by_cases hc : c = codeOK
    · simp [grpcEncodeError, statusFromError, statusError, hc]
    · simp [grpcEncodeError, statusFromError, statusError, hc]
  | some (.otherErr m) =>
    simp [grpcEncodeError, statusFromError, statusError, codeInternal, codeOK]

/-- C1 counterexample: with a service whose `Preamble` fails with a
business error, the endpoint made by `MakePreambleEndpoint` returns a
non-nil second value, yet the `Err` field of the returned
`PreambleResponse` is nil, not equal to that error. -/
theorem preamble_endpoint_err_field_counterexample :
    (endpoints.MakePreambleEndpoint endpoints.failingService ⟨()⟩ ⟨5⟩).2 ≠ none ∧
    (endpoints.MakePreambleEndpoint endpoints.failingService ⟨()⟩ ⟨5⟩).1.Err ≠
      (endpoints.MakePreambleEndpoint endpoints.failingService ⟨()⟩ ⟨5⟩).2 := by
  decide

/-- C1 amended: for every validator, service, context and request, the
`Err` field of the `PreambleResponse` returned by the endpoint closure is
always nil — validation failures and business-logic failures surface only
as the non-nil second return value, never in the response's error field. -/
theorem preamble_endpoint_err_field_always_nil
    (validate : endpoints.PreambleRequest → Option GoError)
    (svc : service.PreamblesvcService) (ctx : Context)
    (req : endpoints.PreambleRequest) :
    (endpoints.makePreambleEndpointV validate svc ctx req).1.Err = none := by
  unfold endpoints.makePreambleEndpointV
  match h : validate req with
  | some err => simp [h]
  | none => simp [h]

/-- C2: for every request whose `validate` returns a non-nil error, the
endpoint closure returns the empty `PreambleResponse{}` together with
exactly that validation error, and the result does not depend on the
wrapped service — the service's `Preamble` is never invoked. The
validator is the parameter supplied by the `Request` interface contract;
the source's concrete `PreambleRequest.validate` is a permissive no-op,
so the claim is exercised through the interface. -/
theorem validate_failure_short_circuits
    (validate : endpoints.PreambleRequest → Option GoError)
    (svc svc' : service.PreamblesvcService) (ctx : Context)
    (req : endpoints.PreambleRequest) (e : GoError)
    (h : validate req = some e) :
    endpoints.makePreambleEndpointV validate svc ctx req = (({} : endpoints.PreambleResponse), some e) ∧
    endpoints.makePreambleEndpointV validate svc ctx req =
      endpoints.makePreambleEndpointV validate svc' ctx req := by
  constructor
  · unfold endpoints.makePreambleEndpointV
    simp [h]
  · unfold endpoints.makePreambleEndpointV
    simp [h]

/-- Witness for C2 at a concrete rejecting validator and request 5,
comparing the stub service against the always-failing one. -/
theorem validate_failure_short_circuits_witness :
    (fun _ : endpoints.PreambleRequest => some (GoError.otherErr "bad")) ⟨5⟩ =
        some (GoError.otherErr "bad") ∧
    (endpoints.makePreambleEndpointV (fun _ => some (GoError.otherErr "bad"))
        service.stubPreamblesvcService ⟨()⟩ ⟨5⟩ = (({} : endpoints.PreambleResponse), some (GoError.otherErr "bad")) ∧
      endpoints.makePreambleEndpointV (fun _ => some (GoError.otherErr "bad"))
          service.stubPreamblesvcService ⟨()⟩ ⟨5⟩ =
        endpoints.makePreambleEndpointV (fun _ => some (GoError.otherErr "bad"))
          endpoints.failingService ⟨()⟩ ⟨5⟩) :=
  ⟨rfl, validate_failure_short_circuits _ service.stubPreamblesvcService
    endpoints.failingService ⟨()⟩ ⟨5⟩ _ rfl⟩

/-- C9: for every well-formed request, when the wrapped service call
succeeds (nil error), the undecorated endpoint returns a
`PreambleResponse` whose `Err` field is nil, whose `StatusCode` is the
OK status, and whose `Headers` is the empty header set. -/
theorem success_gives_ok_response
    (svc : service.PreamblesvcService) (ctx : Context)
    (req : endpoints.PreambleRequest) (rs : Int)
    (h : svc.Preamble ctx req.Msg = (rs, none)) :
    endpoints.MakePreambleEndpoint svc ctx req = ({ Rs := rs, Err := none }, none) ∧
    (endpoints.MakePreambleEndpoint svc ctx req).1.StatusCode = endpoints.httpStatusOK ∧
    (endpoints.MakePreambleEndpoint svc ctx req).1.Headers = [] := by
  refine ⟨?_, rfl, rfl⟩
  unfold endpoints.MakePreambleEndpoint endpoints.makePreambleEndpointV
  simp [endpoints.PreambleRequest.validate, h]

/-- Witness for C9: the stub service on msg 5 succeeds, and the endpoint
returns the OK response carrying 5. -/
theorem success_gives_ok_response_witness :
    service.stubPreamblesvcService.Preamble ⟨()⟩ (endpoints.PreambleRequest.mk 5).Msg = (5, none) ∧
    (endpoints.MakePreambleEndpoint service.stubPreamblesvcService ⟨()⟩ ⟨5⟩ =
        ({ Rs := 5, Err := none }, none) ∧
      (endpoints.MakePreambleEndpoint service.stubPreamblesvcService ⟨()⟩ ⟨5⟩).1.StatusCode =
        endpoints.httpStatusOK ∧
      (endpoints.MakePreambleEndpoint service.stubPreamblesvcService ⟨()⟩ ⟨5⟩).1.Headers = []) :=
  ⟨rfl, success_gives_ok_response service.stubPreamblesvcService ⟨()⟩ ⟨5⟩ 5 rfl⟩

/-- C10: `Endpoints.Preamble` returns `(0, err)` whenever the endpoint's
second value is a non-nil error, and otherwise returns `(resp.Rs, nil)`
without examining the response's `Err` field — in particular a response
carrying a non-nil `Err` together with a nil second value is reported as
success. -/
theorem endpoints_preamble_error_channel
    (E : endpoints.Endpoints) (ctx : Context) (msg : Int) :
    (∀ resp er, E.PreambleEndpoint ctx { Msg := msg } = (resp, some er) →
      E.Preamble ctx msg = (0, some er)) ∧
    (∀ resp, E.PreambleEndpoint ctx { Msg := msg } = (resp, none) →
      E.Preamble ctx msg = (resp.Rs, none)) := by
  constructor
  · intro resp er h
    unfold endpoints.Endpoints.Preamble
    simp [h]
  · intro resp h
    unfold endpoints.Endpoints.Preamble
    simp [h]

/-- Witness for C10: an endpoint set whose endpoint returns a response
with a populated `Err` field but a nil second value is reported to the
caller as the success `(7, nil)`. -/
theorem endpoints_preamble_error_channel_witness :
    (endpoints.Endpoints.mk
        (fun _ _ => ({ Rs := 7, Err := some (GoError.otherErr "hidden") }, none))).PreambleEndpoint
        ⟨()⟩ { Msg := 5 } = ({ Rs := 7, Err := some (GoError.otherErr "hidden") }, none) ∧
    (endpoints.Endpoints.mk
        (fun _ _ => ({ Rs := 7, Err := some (GoError.otherErr "hidden") }, none))).Preamble
        ⟨()⟩ 5 = (7, none) :=
  ⟨rfl, (endpoints_preamble_error_channel _ ⟨()⟩ 5).2 _ rfl⟩

/-- Helper for the circuit-breaker claim: fewer consecutive failures than
the threshold leave the breaker Closed, with the failures counted. -/
theorem iterateFailures_closed_of_lt (cfg : circuitbreaker.Settings) :
    ∀ k, k < cfg.threshold →
      circuitbreaker.iterateFailures cfg (.closed 0) k = .closed k := by
  intro k
  induction k with
  | zero => intro _; rfl
  | succ n ih =>
    intro h
    have hn : n < cfg.threshold := Nat.lt_of_succ_lt h
    have hle : ¬ cfg.threshold ≤ n + 1 := Nat.not_le_of_lt h
    simp [circuitbreaker.iterateFailures, ih hn, circuitbreaker.step, hle]

/-- C7: the circuit-breaker lifecycle — starting Closed, the configured
threshold of consecutive failures opens the breaker; while Open within
the cooldown window every call fails immediately with the circuit-open
error without invoking the wrapped endpoint and the state is unchanged;
once the cooldown has elapsed the Open breaker behaves as the HalfOpen
trial; the trial passes through, a trial success transitions to Closed
and a trial failure transitions back to Open. -/
theorem circuit_breaker_lifecycle (cfg : circuitbreaker.Settings)
    (h : 0 < cfg.threshold) :
    circuitbreaker.iterateFailures cfg (.closed 0) cfg.threshold = .opened 0 ∧
    (∀ t now o, now < t + cfg.cooldown →
      circuitbreaker.step cfg (.opened t) now o =
        (some errCircuitOpen, false, .opened t)) ∧
    (∀ t now o, t + cfg.cooldown ≤ now →
      circuitbreaker.step cfg (.opened t) now o =
        circuitbreaker.step cfg .halfOpen now o) ∧
    (∀ now, circuitbreaker.step cfg .halfOpen now none = (none, true, .closed 0)) ∧
    (∀ now e, circuitbreaker.step cfg .halfOpen now (some e) =
      (some e, true, .opened now)) := by
  refine ⟨?_, ?_, ?_, ?_, ?_⟩
  · obtain ⟨m, hm⟩ := Nat.exists_eq_succ_of_ne_zero (Nat.pos_iff_ne_zero.mp h)
    have hlt : m < cfg.threshold := by omega
    have hth : cfg.threshold ≤ m + 1 := by omega
    rw [hm, circuitbreaker.iterateFailures, iterateFailures_closed_of_lt cfg m hlt]
    simp [circuitbreaker.step, hth]
  · intro t now o hlt
    simp [circuitbreaker.step, hlt]
  · intro t now o hle
    simp [circuitbreaker.step, Nat.not_lt.mpr hle]
  · intro now
    rfl
  · intro now e
    rfl

/-- Witness for C7 with threshold 2 and cooldown 5: two failures open the
breaker; a call at time 3 is rejected with the breaker unchanged; a call
at time 7 is the HalfOpen trial; a trial success closes the breaker and a
trial failure re-opens it at time 7. -/
theorem circuit_breaker_lifecycle_witness :
    0 < (circuitbreaker.Settings.mk 2 5).threshold ∧
    circuitbreaker.iterateFailures ⟨2, 5⟩ (.closed 0) 2 = .opened 0 ∧
    circuitbreaker.step ⟨2, 5⟩ (.opened 0) 3 none =
      (some errCircuitOpen, false, .opened 0) ∧
    circuitbreaker.step ⟨2, 5⟩ (.opened 0) 7 (some (.otherErr "boom")) =
      circuitbreaker.step ⟨2, 5⟩ .halfOpen 7 (some (.otherErr "boom")) ∧
    circuitbreaker.step ⟨2, 5⟩ .halfOpen 7 none = (none, true, .closed 0) ∧
    circuitbreaker.step ⟨2, 5⟩ .halfOpen 7 (some (.otherErr "boom")) =
      (some (.otherErr "boom"), true, .opened 7) :=
  ⟨by decide,
   (circuit_breaker_lifecycle ⟨2, 5⟩ (by decide)).1,
   (circuit_breaker_lifecycle ⟨2, 5⟩ (by decide)).2.1 0 3 none (by decide),
   (circuit_breaker_lifecycle ⟨2, 5⟩ (by decide)).2.2.1 0 7 _ (by decide),
   (circuit_breaker_lifecycle ⟨2, 5⟩ (by decide)).2.2.2.1 7,
   (circuit_breaker_lifecycle ⟨2, 5⟩ (by decide)).2.2.2.2 7 _⟩

/-- C6: the rate-limiting middleware is a hard admission gate — when no
token is available the call fails immediately with the rate-exceeded
error, the limiter is unchanged and the wrapped endpoint is not invoked;
when a token is available it is consumed and the wrapped endpoint's
result is returned unchanged. -/
theorem rate_limiter_admission_gate (l : ratelimit.Limiter)
    (next : Context → endpoints.PreambleRequest → endpoints.PreambleResponse × Option GoError)
    (ctx : Context) (req : endpoints.PreambleRequest) :
    (l.tokens = 0 →
      ratelimit.erroringLimiter l next ctx req =
        ((({} : endpoints.PreambleResponse), some errRateLimited), l, false)) ∧
    (0 < l.tokens →
      ratelimit.erroringLimiter l next ctx req =
        (next ctx req, ⟨l.tokens - 1⟩, true)) := by
  constructor
  · intro h
    simp [ratelimit.erroringLimiter, ratelimit.Limiter.allow, h]
  · intro h
    simp [ratelimit.erroringLimiter, ratelimit.Limiter.allow, h]

/-- Witness for C6: with zero tokens the call is rejected and the wrapped
endpoint is not invoked; with one token the wrapped endpoint's result is
returned unchanged and the token is consumed. -/
theorem rate_limiter_admission_gate_witness :
    (ratelimit.Limiter.mk 0).tokens = 0 ∧
    ratelimit.erroringLimiter ⟨0⟩ (fun _ _ => (⟨5, none⟩, none)) ⟨()⟩ ⟨5⟩ =
      ((({} : endpoints.PreambleResponse), some errRateLimited), ⟨0⟩, false) ∧
    0 < (ratelimit.Limiter.mk 1).tokens ∧
    ratelimit.erroringLimiter ⟨1⟩ (fun _ _ => (⟨5, none⟩, none)) ⟨()⟩ ⟨5⟩ =
      ((⟨5, none⟩, none), ⟨0⟩, true) :=
  ⟨rfl,
   (rate_limiter_admission_gate ⟨0⟩ (fun _ _ => (⟨5, none⟩, none)) ⟨()⟩ ⟨5⟩).1 rfl,
   by decide,
   (rate_limiter_admission_gate ⟨1⟩ (fun _ _ => (⟨5, none⟩, none)) ⟨()⟩ ⟨5⟩).2 (by decide)⟩

/-- C4 counterexample: on a concrete call through the endpoint built by
`New`, the first middleware to execute is the logging middleware, not a
tracing middleware — the recorded entry order is logging, zipkin trace,
opentracing trace, circuit breaker, rate limiter, bare endpoint. -/
theorem middleware_order_counterexample :
    (endpoints.NewT service.stubPreamblesvcService ⟨()⟩ ⟨5⟩).1 =
      ["logging", "zipkin:sum", "opentracing:sum", "circuitbreaker",
        "ratelimit", "endpoint"] ∧
    (endpoints.NewT service.stubPreamblesvcService ⟨()⟩ ⟨5⟩).1.head? = some "logging" ∧
    (endpoints.NewT service.stubPreamblesvcService ⟨()⟩ ⟨5⟩).1.head? ≠ some "opentracing:sum" ∧
    (endpoints.NewT service.stubPreamblesvcService ⟨()⟩ ⟨5⟩).1.head? ≠ some "zipkin:sum" := by
  decide

/-- C4 amended: for every service, context and request, the middleware
chain built by `New` executes, outermost to innermost: logging, then
zipkin tracing, then opentracing tracing, then circuit breaking, then
rate limiting, then the bare endpoint — and the call's result is exactly
the bare endpoint's result when the limiter grants a token and the
breaker is Closed. -/
theorem middleware_order_actual (svc : service.PreamblesvcService)
    (ctx : Context) (req : endpoints.PreambleRequest) :
    (endpoints.NewT svc ctx req).1 =
      ["logging", "zipkin:sum", "opentracing:sum", "circuitbreaker",
        "ratelimit", "endpoint"] ∧
    (endpoints.NewT svc ctx req).2 = endpoints.MakePreambleEndpoint svc ctx req := by
  constructor <;> rfl

/-- C8: the log entry emitted by `loggingMiddleware.Preamble` tags the
method as "Preable", which is not the operation name "Preamble". -/
theorem logging_method_tag_not_operation_name :
    (service.loggingPreambleLogEntry 5 none).head? =
      some ("method", service.LogValue.str "Preable") ∧
    "Preable" ≠ "Preamble" := by
  decide
